import Mathlib

/-!
Verification of the ACP (Autonomous Command Protocol) reference C codec.

This file gives a shallow embedding, over `Nat`-valued bytes, of the parts of
the codec that the verified properties concern:

* `src/acp_crc16.c` — the table-driven CRC-16/CCITT implementation;
* `src/acp_cobs.c` — the COBS byte-stuffing encoder and decoder;
* `src/acp_framer.c` — wire-frame construction (`acp_frame_encode`) and
  parsing (`acp_frame_decode`);
* `src/acp.c` — the facade operations `acp_encode_frame` / `acp_decode_frame`
  together with the session bookkeeping they perform;
* `src/acp_session.c` — session initialisation and the transmit-sequence
  helper.

Machine integers are modelled as `Nat` with explicit truncation (`% 256`,
`% 65536`, `% 4294967296`) at the points where the C code performs a
narrowing conversion.  Byte buffers are `List Nat`.  The wire layout follows
the behaviour of the C code on a little-endian host, which is the layout the
repository's own byte-order test (`src/tests/byte_order_test.c`) pins down.

The HMAC primitive is kept as an explicit function parameter of the facade
operations: `src/acp.c` calls `acp_hmac_sha256`, for which the repository
ships a test stub (`src/acp_crypto_stub.c`, embedded below as
`acp_hmac_sha256_stub`); the portable real implementation is declared in
`src/acp_crypto.h` but its definition is not part of the sources, so it is
modelled from the specification (`hmac_sha256_spec` below).
-/

/- ===================================================================== -/
/- CRC-16/CCITT (src/acp_crc16.c)                                        -/
/- ===================================================================== -/

/-- One shift-and-conditionally-xor round of the CRC-16 recurrence on a
16-bit state, exactly the inner loop body of `acp_crc16_init_table`
(`src/acp_crc16.c:37-47`): test bit 15, shift left, xor `ACP_CRC16_POLY =
0x1021` when the tested bit was set, truncate to `uint16_t`. -/
def crcStep (c : Nat) : Nat :=
  if c &&& 0x8000 ≠ 0 then ((c <<< 1) ^^^ 0x1021) % 65536 else (c <<< 1) % 65536

/-- Eight rounds of `crcStep` — the `for (j = 0; j < 8; j++)` loop. -/
def crcStep8 (c : Nat) : Nat :=
  crcStep (crcStep (crcStep (crcStep (crcStep (crcStep (crcStep (crcStep c)))))))

/-- The 256-entry lookup table built by `acp_crc16_init_table`
(`src/acp_crc16.c:26-53`): entry `i` starts from `(uint16_t)(i << 8)` and
runs eight `crcStep` rounds. -/
def acp_crc16_table : List Nat :=
  (List.range 256).map (fun i => crcStep8 ((i <<< 8) % 65536))

/-- `acp_crc16_update_byte` (`src/acp_crc16.c:79-85`): the table index is
`(uint8_t)((crc >> 8) ^ byte)` and the new state is the `uint16_t`
truncation of `(crc << 8) ^ crc16_table[index]`. -/
def acp_crc16_update_byte (crc b : Nat) : Nat :=
  ((crc <<< 8) ^^^ acp_crc16_table.getD (((crc >>> 8) ^^^ b) % 256) 0) % 65536

/-- `acp_crc16_update` (`src/acp_crc16.c:90-105`): byte-wise fold of
`acp_crc16_update_byte`. -/
def acp_crc16_update (crc : Nat) (data : List Nat) : Nat :=
  data.foldl acp_crc16_update_byte crc

/-- `acp_crc16_init` returns `ACP_CRC16_INIT = 0xFFFF`. -/
def acp_crc16_init : Nat := 0xFFFF

/-- `acp_crc16_finalize` xors with `ACP_CRC16_FINAL_XOR = 0x0000`. -/
def acp_crc16_finalize (crc : Nat) : Nat := crc ^^^ 0x0000

/-- `acp_crc16_calculate` (`src/acp_crc16.c:119-129`): init, update over the
buffer, finalize. -/
def acp_crc16_calculate (data : List Nat) : Nat :=
  acp_crc16_finalize (acp_crc16_update acp_crc16_init data)

/-- The textbook bitwise CRC-16/CCITT byte step (polynomial `0x1021`,
MSB-first, no reflection): xor the byte into the high 8 bits of the state
and run eight polynomial-reduction rounds.  This is the reference
definition the table-driven code is checked against. -/
def crc16_ccitt_step (crc b : Nat) : Nat :=
  crcStep8 ((crc ^^^ (b <<< 8)) % 65536)

/-- Reference CRC-16/CCITT of a byte string: initial value `0xFFFF`, bitwise
byte steps, no final xor. -/
def crc16_ccitt (data : List Nat) : Nat :=
  data.foldl crc16_ccitt_step 0xFFFF

/- ===================================================================== -/
/- Result codes (src/acp_protocol.h, acp_result_t)                       -/
/- ===================================================================== -/

/-- The `acp_result_t` enumeration from `src/acp_protocol.h:171-205`.
`ACP_ERR_REPLAY_ATTACK` is a numeric alias of `ACP_ERR_REPLAY` (-42) in the
C header and is therefore represented by the same constructor. -/
inductive AcpResult where
  | ACP_OK
  | ACP_ERR_INVALID_PARAM
  | ACP_ERR_BUFFER_TOO_SMALL
  | ACP_ERR_NEED_MORE_DATA
  | ACP_ERR_INVALID_VERSION
  | ACP_ERR_INVALID_TYPE
  | ACP_ERR_PAYLOAD_TOO_LARGE
  | ACP_ERR_MALFORMED_FRAME
  | ACP_ERR_COBS_DECODE
  | ACP_ERR_COBS_ENCODE
  | ACP_ERR_CRC_MISMATCH
  | ACP_ERR_AUTH_REQUIRED
  | ACP_ERR_AUTH_FAILED
  | ACP_ERR_REPLAY
  | ACP_ERR_KEY_NOT_FOUND
  | ACP_ERR_SESSION_NOT_INIT
  | ACP_ERR_SESSION_EXPIRED
  | ACP_ERR_NOT_IMPLEMENTED
  | ACP_ERR_INTERNAL
  deriving DecidableEq, Repr

export AcpResult (ACP_OK ACP_ERR_INVALID_PARAM ACP_ERR_BUFFER_TOO_SMALL
  ACP_ERR_NEED_MORE_DATA ACP_ERR_INVALID_VERSION ACP_ERR_INVALID_TYPE
  ACP_ERR_PAYLOAD_TOO_LARGE ACP_ERR_MALFORMED_FRAME ACP_ERR_COBS_DECODE
  ACP_ERR_COBS_ENCODE ACP_ERR_CRC_MISMATCH ACP_ERR_AUTH_REQUIRED
  ACP_ERR_AUTH_FAILED ACP_ERR_REPLAY ACP_ERR_KEY_NOT_FOUND
  ACP_ERR_SESSION_NOT_INIT ACP_ERR_SESSION_EXPIRED ACP_ERR_NOT_IMPLEMENTED
  ACP_ERR_INTERNAL)

/- ===================================================================== -/
/- COBS codec (src/acp_cobs.c)                                          -/
/- ===================================================================== -/

/-- `acp_cobs_max_encoded_size` (`src/acp_cobs.c:162-169`) with
`ACP_COBS_OVERHEAD(len) = len/254 + 1`. -/
def acp_cobs_max_encoded_size (n : Nat) : Nat :=
  if n = 0 then 1 else n + (n / 254 + 1)

/-- The while-loop of `acp_cobs_encode` (`src/acp_cobs.c:58-84`).  Each
iteration takes the longest prefix of at most `ACP_COBS_BLOCK_SIZE = 254`
non-zero bytes, emits its length plus one followed by the bytes, and then
skips one `0x00` byte when the remaining input starts with one.  Note that
the zero skip happens even directly after a full 254-byte block.  The
first argument is recursion fuel; every iteration of the C loop consumes
at least one input byte, so any fuel of at least the input length gives
the loop's exact behaviour (the wrapper below passes the input length). -/
def acp_cobs_encode_loop : Nat → List Nat → List Nat
  | _, [] => []
  | 0, _ :: _ => []
  | fuel + 1, h :: t =>
    let block := ((h :: t).take 254).takeWhile (· ≠ 0)
    let rest := (h :: t).drop block.length
    let rest2 := if rest.headD 1 = 0 then rest.tail else rest
    (block.length + 1) :: (block ++ acp_cobs_encode_loop fuel rest2)

/-- `acp_cobs_encode` (`src/acp_cobs.c:39-88`): up-front output-capacity
check against the worst case, then the stuffing loop (which never writes a
zero and cannot fail). -/
def acp_cobs_encode (input : List Nat) (output_size : Nat) :
    Except AcpResult (List Nat) :=
  if output_size < acp_cobs_max_encoded_size input.length then
    .error ACP_ERR_BUFFER_TOO_SMALL
  else
    .ok (acp_cobs_encode_loop input.length input)

/-- The while-loop of `acp_cobs_decode` (`src/acp_cobs.c:114-152`).
`decoded` counts output bytes produced so far (for the output-capacity
check); a trailing zero is appended after a block iff input remains and the
code byte was not `255`.  The first argument is recursion fuel; each C loop
iteration consumes at least the code byte, so fuel of at least the input
length is exact (the wrapper passes the input length). -/
def acp_cobs_decode_loop : Nat → List Nat → Nat → Nat → Except AcpResult (List Nat)
  | _, [], _, _ => .ok []
  | 0, _ :: _, _, _ => .ok []
  | fuel + 1, code :: rest, output_size, decoded =>
    if code = 0 ∨ code > 255 then .error ACP_ERR_COBS_DECODE
    else
      let bl := code - 1
      if bl > rest.length then .error ACP_ERR_COBS_DECODE
      else if decoded + bl + (if rest.length > bl then 1 else 0) > output_size then
        .error ACP_ERR_BUFFER_TOO_SMALL
      else
        let block := rest.take bl
        let rem := rest.drop bl
        if rem.length > 0 ∧ code ≠ 255 then
          match acp_cobs_decode_loop fuel rem output_size (decoded + bl + 1) with
          | .error e => .error e
          | .ok tl => .ok (block ++ 0 :: tl)
        else
          match acp_cobs_decode_loop fuel rem output_size (decoded + bl) with
          | .error e => .error e
          | .ok tl => .ok (block ++ tl)

/-- `acp_cobs_decode` (`src/acp_cobs.c:94-156`): empty input decodes to the
empty output, otherwise the destuffing loop runs. -/
def acp_cobs_decode (input : List Nat) (output_size : Nat) :
    Except AcpResult (List Nat) :=
  if input.length = 0 then .ok []
  else acp_cobs_decode_loop input.length input output_size 0

/- ===================================================================== -/
/- Frames and sessions (src/acp_protocol.h)                              -/
/- ===================================================================== -/

/-- The host frame structure `acp_frame_t` (`src/acp_protocol.h:138-148`).
The C struct carries a fixed 1024-byte payload array together with a
`length` field; here `payload` is the list of bytes the code actually
reads, i.e. the first `length` array entries (the wire builder below pads
with zeroes exactly as the zero-initialised C array would).  The wire-only
`crc16`/`hmac_tag` scratch fields are not retained. -/
structure AcpFrame where
  version : Nat
  type : Nat
  flags : Nat
  length : Nat
  sequence : Nat
  payload : List Nat
  deriving DecidableEq, Repr

/-- The session structure `acp_session_t` (`src/acp_protocol.h:153-162`).
All counters are 32-bit; `next_sequence` and `last_accepted_seq` are kept
below `2^32` by the operations. -/
structure AcpSession where
  key_id : Nat
  key : List Nat
  nonce : Nat
  next_sequence : Nat
  last_accepted_seq : Nat
  policy_flags : Nat
  initialized : Bool
  deriving DecidableEq, Repr

/-- `acp_is_valid_frame_type` (`src/acp.c:314-325`): Telemetry `0x01`,
Command `0x02`, System `0x03`. -/
def acp_is_valid_frame_type (t : Nat) : Bool :=
  t = 0x01 || t = 0x02 || t = 0x03

/-- `acp_frame_requires_auth` (`src/acp.c:330-342`): only Command frames
require authentication. -/
def acp_frame_requires_auth (t : Nat) : Bool :=
  t = 0x02

/-- Modelled from the spec: `acp_wire_header_size` is called by
`src/acp_framer.c` but has no definition under `src/`.  Its values are
pinned by `src/tests/test_conditional_sequence.c:94-101`: the packed base
header (`acp_wire_header_base_t`: version, type, flags, reserved, 16-bit
length) is 6 bytes, and the conditional 32-bit sequence field is present
exactly when the `ACP_FLAG_AUTHENTICATED` bit (`0x01`) is set. -/
def acp_wire_header_size (flags : Nat) : Nat :=
  if flags &&& 0x01 ≠ 0 then 10 else 6

/- ===================================================================== -/
/- Frame codec (src/acp_framer.c)                                        -/
/- ===================================================================== -/

/-- The payload bytes `acp_frame_encode` copies out of the frame struct:
`frame.length` bytes from the payload array, which is `payload` padded
with zeroes (the facade zero-initialises the struct before copying). -/
def framePayloadBytes (f : AcpFrame) : List Nat :=
  f.payload.take f.length ++ List.replicate (f.length - f.payload.length) 0

/-- The sequence field serialisation of `acp_frame_encode`
(`src/acp_framer.c:88-97`): four bytes, most significant first. -/
def seqBytesBE (s : Nat) : List Nat :=
  [(s >>> 24) % 256, (s >>> 16) % 256, (s >>> 8) % 256, s % 256]

/-- The `wire_frame` buffer contents assembled by `acp_frame_encode`
(`src/acp_framer.c:75-108`): base header (version, type, flags, zero
reserved byte, big-endian length), optional big-endian sequence, payload,
and the CRC-16 of everything so far appended LOW BYTE FIRST
(`wire_frame[size-2] = crc & 0xFF; wire_frame[size-1] = crc >> 8`). -/
def acp_frame_wire_body (f : AcpFrame) : List Nat :=
  [f.version % 256, f.type % 256, f.flags % 256, 0,
   (f.length >>> 8) % 256, f.length % 256]
  ++ (if f.flags &&& 0x01 ≠ 0 then seqBytesBE f.sequence else [])
  ++ framePayloadBytes f

/-- The complete `wire_frame` buffer: the body above followed by the two
CRC bytes in the order the C code writes them (low byte first). -/
def acp_frame_wire_bytes (f : AcpFrame) : List Nat :=
  acp_frame_wire_body f ++ [acp_crc16_calculate (acp_frame_wire_body f) % 256,
                            (acp_crc16_calculate (acp_frame_wire_body f) >>> 8) % 256]

/-- `acp_frame_encode` (`src/acp_framer.c:46-129`): worst-case output
capacity check, `ACP_MAX_FRAME_SIZE = 1088` bound on the wire frame,
CRC append, COBS stuffing into `output+1` with capacity `output_size - 2`,
and the two `0x00` delimiters. -/
def acp_frame_encode (f : AcpFrame) (output_size : Nat) :
    Except AcpResult (List Nat) :=
  let header_size := acp_wire_header_size f.flags
  let wire_frame_size := header_size + f.length + 2
  let max_encoded_size := acp_cobs_max_encoded_size wire_frame_size + 2
  if output_size < max_encoded_size then .error ACP_ERR_BUFFER_TOO_SMALL
  else if wire_frame_size > 1088 then .error ACP_ERR_PAYLOAD_TOO_LARGE
  else
    match acp_cobs_encode (acp_frame_wire_bytes f) (output_size - 2) with
    | .error e => .error e
    | .ok enc => .ok (0 :: (enc ++ [0]))

/-- The end-delimiter scan shared by `acp_frame_decode`
(`src/acp_framer.c:153-167`) and `acp_decode_frame` (`src/acp.c:221-234`):
index of the first `0x00` at position `1` or later, `none` when absent. -/
def acp_find_frame_end (input : List Nat) : Option Nat :=
  match (input.drop 1).findIdx? (· = 0) with
  | some j => some (j + 1)
  | none => none

/-- The received-CRC read of `acp_frame_decode` (`src/acp_framer.c:202`):
`(decoded[len-1] << 8) | decoded[len-2]` — low byte first on the wire. -/
def acp_received_crc (d : List Nat) : Nat :=
  ((d.getD (d.length - 1) 0) <<< 8) ||| d.getD (d.length - 2) 0

/-- The big-endian 16-bit length read of `acp_frame_decode`
(`src/acp_framer.c:211`), byte 4 high, byte 5 low (bytes are `uint8_t`). -/
def acp_wire_payload_len (d : List Nat) : Nat :=
  256 * (d.getD 4 0 % 256) + (d.getD 5 0 % 256)

/-- The big-endian 32-bit sequence read of `acp_frame_decode`
(`src/acp_framer.c:228-241`). -/
def acp_wire_sequence (d : List Nat) : Nat :=
  (d.getD 6 0 % 256) <<< 24 ||| (d.getD 7 0 % 256) <<< 16 |||
  (d.getD 8 0 % 256) <<< 8 ||| (d.getD 9 0 % 256)

/-- `acp_frame_decode` (`src/acp_framer.c:131-260`): minimum-size check,
leading-delimiter check, end-delimiter scan, COBS destuffing into a
1088-byte buffer, minimum decoded length, flag-dependent header size, CRC
verification, length consistency, field extraction, payload copy with the
late `ACP_MAX_PAYLOAD_SIZE` check.  The reserved byte (`decoded[3]`) and
reserved flag bits are never inspected.  Returns
(result, decoded frame, bytes consumed). -/
def acp_frame_decode (input : List Nat) : AcpResult × Option AcpFrame × Nat :=
  if input.length < 6 + 2 + 2 then (ACP_ERR_NEED_MORE_DATA, none, 0)
  else if input.getD 0 0 ≠ 0 then (ACP_ERR_MALFORMED_FRAME, none, 0)
  else
    match acp_find_frame_end input with
    | none => (ACP_ERR_NEED_MORE_DATA, none, 0)
    | some frame_end =>
      match acp_cobs_decode ((input.drop 1).take (frame_end - 1)) 1088 with
      | .error e => (e, none, 0)
      | .ok d =>
        if d.length < 6 + 2 then (ACP_ERR_MALFORMED_FRAME, none, 0)
        else
          let expected_header_size := acp_wire_header_size (d.getD 2 0)
          if d.length < expected_header_size + 2 then
            (ACP_ERR_MALFORMED_FRAME, none, 0)
          else if acp_crc16_calculate (d.take (d.length - 2)) ≠ acp_received_crc d then
            (ACP_ERR_CRC_MISMATCH, none, 0)
          else
            let payload_len := acp_wire_payload_len d
            if expected_header_size + payload_len + 2 ≠ d.length then
              (ACP_ERR_MALFORMED_FRAME, none, 0)
            else if payload_len > 1024 then (ACP_ERR_PAYLOAD_TOO_LARGE, none, 0)
            else
              (ACP_OK, some {
                version := d.getD 0 0
                type := d.getD 1 0
                flags := d.getD 2 0
                length := payload_len
                sequence := if d.getD 2 0 &&& 0x01 ≠ 0 then acp_wire_sequence d else 0
                payload := (d.drop expected_header_size).take payload_len },
               frame_end + 1)

/- ===================================================================== -/
/- Session operations (src/acp_session.c)                                -/
/- ===================================================================== -/

/-- `acp_session_init` (`src/acp_session.c:28-50`): zero the session, set
`key_id`, `next_sequence = 1` (0 is reserved for unauthenticated frames),
`last_accepted_seq = 0`, mark initialised, copy the 32-byte key and the
(first eight bytes of the) nonce.  The C `NULL`-argument guards have no
counterpart for list/Nat arguments. -/
def acp_session_init (key_id : Nat) (key : List Nat) (nonce : Nat) : AcpSession :=
  { key_id := key_id
    key := key.take 32 ++ List.replicate (32 - key.length) 0
    nonce := nonce
    next_sequence := 1
    last_accepted_seq := 0
    policy_flags := 0
    initialized := true }

/-- `acp_session_get_tx_seq` (`src/acp_session.c:58-78`): fail when the
session is not initialised, otherwise hand out `next_sequence` and advance
it, skipping `0` on 32-bit rollover. -/
def acp_session_get_tx_seq (s : AcpSession) :
    AcpResult × Option Nat × AcpSession :=
  if ¬ s.initialized then (ACP_ERR_SESSION_NOT_INIT, none, s)
  else
    let seq := s.next_sequence
    let next := (s.next_sequence + 1) % 4294967296
    let next := if next = 0 then 1 else next
    (ACP_OK, some seq, { s with next_sequence := next })

/-- The receive-side replay-window state operated on by
`acp_session_check_rx_seq` (`src/acp_session.c:86-148`).  That function
addresses session fields (`is_active`, `rx_seq`, `replay_window`,
`replay_counter`) which do not exist on the `acp_session_t` structure of
`src/acp_protocol.h`; they are collected here as their own record. -/
structure AcpRxWindow where
  is_active : Bool
  rx_seq : Nat
  replay_window : Nat
  replay_counter : Nat
  deriving DecidableEq, Repr

/-- `acp_session_check_rx_seq` (`src/acp_session.c:86-148`): the 64-bit
sliding replay window.  Note that `acp_decode_frame` in `src/acp.c` never
calls this function. -/
def acp_session_check_rx_seq (s : AcpRxWindow) (rx_seq : Nat) :
    AcpResult × AcpRxWindow :=
  if ¬ s.is_active then (ACP_ERR_SESSION_EXPIRED, s)
  else if rx_seq = 0 then (ACP_ERR_INVALID_PARAM, s)
  else if s.rx_seq = 0 then
    (ACP_OK, { s with rx_seq := rx_seq, replay_window := 1, replay_counter := rx_seq })
  else if rx_seq < s.replay_counter ∧ s.replay_counter - rx_seq > 64 then
    (ACP_ERR_REPLAY, s)
  else if rx_seq > s.replay_counter then
    let shift := rx_seq - s.replay_counter
    let w := if shift ≥ 64 then 1
             else ((s.replay_window <<< shift) ||| 1) % 18446744073709551616
    (ACP_OK, { s with replay_window := w, replay_counter := rx_seq, rx_seq := rx_seq })
  else
    let bit_pos := s.replay_counter - rx_seq
    if bit_pos ≥ 64 then (ACP_ERR_REPLAY, s)
    else if s.replay_window &&& (1 <<< bit_pos) ≠ 0 then (ACP_ERR_REPLAY, s)
    else (ACP_OK, { s with replay_window := s.replay_window ||| (1 <<< bit_pos) })

/- ===================================================================== -/
/- Crypto primitives                                                     -/
/- ===================================================================== -/

/-- The test stub `acp_hmac_sha256` from `src/acp_crypto_stub.c:9-24`: it
ignores key and data and fills the 16-byte mac buffer with the pattern
`0xA0 + i`. -/
def acp_hmac_sha256_stub (_key _data : List Nat) : List Nat :=
  (List.range 16).map (fun i => 0xA0 + i)

/-- Modelled from the spec: `acp_crypto_memcmp_ct` is declared in
`src/acp_crypto.h:172-183` ("returns 0 if equal, non-zero if different",
constant time) and called by `src/acp.c:269`, but has no definition under
`src/`.  Timing is not observable in this embedding, so only the result
matters. -/
def acp_crypto_memcmp_ct (a b : List Nat) : Nat :=
  if a = b then 0 else 1

/- ===================================================================== -/
/- Facade (src/acp.c)                                                    -/
/- ===================================================================== -/

/-- `acp_encode_frame` (`src/acp.c:97-187`).  Checks in source order:
payload size, frame-type validity, Command-requires-authentication,
session presence for authenticated frames.  Then the frame struct is
built with the sequence taken (unchecked) from `session->next_sequence`,
framed by `acp_frame_encode`, and for authenticated frames the first 16
bytes of `acp_hmac_sha256(session->key, 32, output+1, frame_size-2, ...)`
are appended after the trailing delimiter and `next_sequence` is
incremented (plain 32-bit `++`, with no skip of `0`).  `hmac` abstracts
the linked `acp_hmac_sha256` implementation; the result is
(result code, output bytes, session after the call). -/
def acp_encode_frame (hmac : List Nat → List Nat → List Nat)
    (ty flags : Nat) (payload : List Nat) (session : Option AcpSession)
    (output_size : Nat) : AcpResult × List Nat × Option AcpSession :=
  if payload.length > 1024 then (ACP_ERR_PAYLOAD_TOO_LARGE, [], session)
  else if ¬ acp_is_valid_frame_type ty then (ACP_ERR_INVALID_TYPE, [], session)
  else if acp_frame_requires_auth ty ∧ flags &&& 0x01 = 0 then
    (ACP_ERR_AUTH_REQUIRED, [], session)
  else if flags &&& 0x01 ≠ 0 ∧ session = none then
    (ACP_ERR_SESSION_NOT_INIT, [], session)
  else
    let seq := if flags &&& 0x01 ≠ 0 then
                 (match session with | some s => s.next_sequence | none => 0)
               else 0
    let frame : AcpFrame :=
      { version := 0x11, type := ty, flags := flags,
        length := payload.length, sequence := seq, payload := payload }
    match acp_frame_encode frame output_size with
    | .error e => (e, [], session)
    | .ok outBytes =>
      if flags &&& 0x01 ≠ 0 then
        match session with
        | none => (ACP_ERR_SESSION_NOT_INIT, [], session)
        | some s =>
          if output_size < outBytes.length + 16 then
            (ACP_ERR_BUFFER_TOO_SMALL, [], session)
          else
            let inner := (outBytes.drop 1).take (outBytes.length - 2)
            let tag := (hmac (s.key.take 32) inner).take 16
            (ACP_OK, outBytes ++ tag,
             some { s with next_sequence := (s.next_sequence + 1) % 4294967296 })
      else (ACP_OK, outBytes, session)

/-- `acp_decode_frame` (`src/acp.c:192-299`).  Leading-delimiter check and
end-delimiter scan, tentative `acp_frame_decode` of the delimited slice,
then for authenticated frames: session presence AND `initialized` check,
availability of the 16 tag bytes, constant-time comparison of the
recomputed tag (`acp_hmac_sha256` over the bytes between the delimiters)
with the received tag, and the replay check
`sequence <= last_accepted_seq` (a plain monotonicity test; the sliding
window of `acp_session_check_rx_seq` is not consulted).  Session state is
written only after both checks pass.  Unauthenticated Command frames are
rejected after `consumed` has been set.  Returns
(result, frame, consumed, session after the call). -/
def acp_decode_frame (hmac : List Nat → List Nat → List Nat)
    (input : List Nat) (session : Option AcpSession) :
    AcpResult × Option AcpFrame × Nat × Option AcpSession :=
  if input.length = 0 then (ACP_ERR_NEED_MORE_DATA, none, 0, session)
  else if input.getD 0 0 ≠ 0 then (ACP_ERR_MALFORMED_FRAME, none, 0, session)
  else
    match acp_find_frame_end input with
    | none => (ACP_ERR_NEED_MORE_DATA, none, 0, session)
    | some frame_end =>
      match acp_frame_decode (input.take (frame_end + 1)) with
      | (ACP_OK, some temp_frame, frame_consumed) =>
        if temp_frame.flags &&& 0x01 ≠ 0 then
          match session with
          | none => (ACP_ERR_SESSION_NOT_INIT, none, 0, session)
          | some s =>
            if ¬ s.initialized then (ACP_ERR_SESSION_NOT_INIT, none, 0, session)
            else if input.length < frame_consumed + 16 then
              (ACP_ERR_NEED_MORE_DATA, none, 0, session)
            else
              let expected := (hmac (s.key.take 32)
                ((input.drop 1).take (frame_consumed - 2))).take 16
              let received := (input.drop frame_consumed).take 16
              if acp_crypto_memcmp_ct expected received ≠ 0 then
                (ACP_ERR_AUTH_FAILED, none, 0, session)
              else if temp_frame.sequence ≤ s.last_accepted_seq then
                (ACP_ERR_REPLAY, none, 0, session)
              else
                (ACP_OK, some temp_frame, frame_consumed + 16,
                 some { s with last_accepted_seq := temp_frame.sequence })
        else
          if acp_frame_requires_auth temp_frame.type then
            (ACP_ERR_AUTH_REQUIRED, none, frame_consumed, session)
          else (ACP_OK, some temp_frame, frame_consumed, session)
      | (r, _, _) => (r, none, 0, session)

/- ===================================================================== -/
/- SHA-256 and HMAC-SHA-256, modelled from the spec                      -/
/- ===================================================================== -/

/-- Modelled from the spec: 32-bit right rotation, FIPS 180-4. -/
def rotr32 (x n : Nat) : Nat := ((x >>> n) ||| (x <<< (32 - n))) % 4294967296

/-- Modelled from the spec: FIPS 180-4 `Σ0`. -/
def bsig0 (x : Nat) : Nat := rotr32 x 2 ^^^ rotr32 x 13 ^^^ rotr32 x 22

/-- Modelled from the spec: FIPS 180-4 `Σ1`. -/
def bsig1 (x : Nat) : Nat := rotr32 x 6 ^^^ rotr32 x 11 ^^^ rotr32 x 25

/-- Modelled from the spec: FIPS 180-4 `σ0`. -/
def ssig0 (x : Nat) : Nat := rotr32 x 7 ^^^ rotr32 x 18 ^^^ (x >>> 3)

/-- Modelled from the spec: FIPS 180-4 `σ1`. -/
def ssig1 (x : Nat) : Nat := rotr32 x 17 ^^^ rotr32 x 19 ^^^ (x >>> 10)

/-- Modelled from the spec: FIPS 180-4 `Ch` (complement as xor with the
32-bit all-ones mask; all inputs stay below `2^32`). -/
def sha256_ch (x y z : Nat) : Nat := (x &&& y) ^^^ ((x ^^^ 0xFFFFFFFF) &&& z)

/-- Modelled from the spec: FIPS 180-4 `Maj`. -/
def sha256_maj (x y z : Nat) : Nat := (x &&& y) ^^^ (x &&& z) ^^^ (y &&& z)

/-- Modelled from the spec: the 64 FIPS 180-4 round constants. -/
def sha256_K : List Nat := [
  1116352408, 1899447441, 3049323471, 3921009573,
  961987163, 1508970993, 2453635748, 2870763221,
  3624381080, 310598401, 607225278, 1426881987,
  1925078388, 2162078206, 2614888103, 3248222580,
  3835390401, 4022224774, 264347078, 604807628,
  770255983, 1249150122, 1555081692, 1996064986,
  2554220882, 2821834349, 2952996808, 3210313671,
  3336571891, 3584528711, 113926993, 338241895,
  666307205, 773529912, 1294757372, 1396182291,
  1695183700, 1986661051, 2177026350, 2456956037,
  2730485921, 2820302411, 3259730800, 3345764771,
  3516065817, 3600352804, 4094571909, 275423344,
  430227734, 506948616, 659060556, 883997877,
  958139571, 1322822218, 1537002063, 1747873779,
  1955562222, 2024104815, 2227730452, 2361852424,
  2428436474, 2756734187, 3204031479, 3329325298]

/-- Modelled from the spec: the FIPS 180-4 initial hash value. -/
def sha256_H0 : List Nat := [
  1779033703, 3144134277, 1013904242, 2773480762,
  1359893119, 2600822924, 528734635, 1541459225]

/-- Big-endian packing of bytes into 32-bit words. -/
def bytesToWordsBE : List Nat → List Nat
  | b0 :: b1 :: b2 :: b3 :: rest =>
    ((b0 % 256) <<< 24 ||| (b1 % 256) <<< 16 ||| (b2 % 256) <<< 8 ||| (b3 % 256))
      :: bytesToWordsBE rest
  | _ => []

/-- Big-endian unpacking of a 32-bit word into four bytes. -/
def wordToBytesBE (w : Nat) : List Nat :=
  [(w >>> 24) % 256, (w >>> 16) % 256, (w >>> 8) % 256, w % 256]

/-- Big-endian eight-byte encoding of the 64-bit message bit length. -/
def len64be (n : Nat) : List Nat :=
  [(n >>> 56) % 256, (n >>> 48) % 256, (n >>> 40) % 256, (n >>> 32) % 256,
   (n >>> 24) % 256, (n >>> 16) % 256, (n >>> 8) % 256, n % 256]

/-- Modelled from the spec: FIPS 180-4 padding — append `0x80`, zero-pad to
56 mod 64, append the 64-bit big-endian bit length. -/
def sha256_pad (m : List Nat) : List Nat :=
  let L := m.length
  let k := (64 + 56 - ((L + 1) % 64)) % 64
  m ++ [0x80] ++ List.replicate k 0 ++ len64be (L * 8)

/-- Modelled from the spec: extension of the 16-word block to the 64-word
message schedule (the argument is the number of words still to append). -/
def sha256_extend : Nat → List Nat → List Nat
  | 0, w => w
  | n + 1, w =>
    let i := w.length
    let nw := (ssig1 (w.getD (i - 2) 0) + w.getD (i - 7) 0 +
               ssig0 (w.getD (i - 15) 0) + w.getD (i - 16) 0) % 4294967296
    sha256_extend n (w ++ [nw])

/-- Modelled from the spec: one FIPS 180-4 compression round; the state is
the eight working variables `a..h` in order. -/
def sha256_round (st : List Nat) (kw : Nat × Nat) : List Nat :=
  let a := st.getD 0 0
  let b := st.getD 1 0
  let c := st.getD 2 0
  let d := st.getD 3 0
  let e := st.getD 4 0
  let f := st.getD 5 0
  let g := st.getD 6 0
  let h := st.getD 7 0
  let t1 := (h + bsig1 e + sha256_ch e f g + kw.1 + kw.2) % 4294967296
  let t2 := (bsig0 a + sha256_maj a b c) % 4294967296
  [(t1 + t2) % 4294967296, a, b, c, (d + t1) % 4294967296, e, f, g]

/-- Modelled from the spec: process one 64-byte block — run the 64 rounds
over the extended schedule and add the result into the hash state. -/
def sha256_process_block (H block : List Nat) : List Nat :=
  let w := sha256_extend 48 (bytesToWordsBE block)
  let st := (sha256_K.zip w).foldl sha256_round H
  (H.zip st).map (fun p => (p.1 + p.2) % 4294967296)

/-- Modelled from the spec: fold over the 64-byte blocks of the padded
message.  The first argument is recursion fuel; each step consumes 64
bytes, so fuel of at least the message length is exact. -/
def sha256_blocks : Nat → List Nat → List Nat → List Nat
  | _, H, [] => H
  | 0, H, _ :: _ => H
  | fuel + 1, H, m => sha256_blocks fuel (sha256_process_block H (m.take 64)) (m.drop 64)

/-- Modelled from the spec: one-shot SHA-256 over a byte string, 32-byte
big-endian digest. -/
def sha256 (m : List Nat) : List Nat :=
  let padded := sha256_pad m
  ((sha256_blocks padded.length sha256_H0 padded).map wordToBytesBE).foldr (· ++ ·) []

/-- Modelled from the spec: RFC 2104 HMAC-SHA-256 with block size 64 — a
key longer than 64 bytes is hashed first, then zero-padded to 64; the full
32-byte tag is returned. -/
def hmac_sha256_spec (key msg : List Nat) : List Nat :=
  let k0 := if key.length > 64 then sha256 key else key
  let k1 := k0 ++ List.replicate (64 - k0.length) 0
  let ipad := k1.map (fun b => b ^^^ 0x36)
  let opad := k1.map (fun b => b ^^^ 0x5C)
  sha256 (opad ++ sha256 (ipad ++ msg))

/-- Modelled from the spec: the portable `acp_hmac_sha256` declared in
`src/acp_crypto.h:156-166` ("Provides portable implementations of SHA-256
hash and HMAC-SHA256") whose real definition is not among the sources —
only the test stub `acp_crypto_stub.c` is.  Per spec §4.2 it is RFC 2104
HMAC-SHA-256; the codec truncates the tag to its first 16 bytes. -/
def acp_hmac_sha256 (key msg : List Nat) : List Nat :=
  hmac_sha256_spec key msg

/- ===================================================================== -/
/- Helper lemmas: bit arithmetic                                         -/
/- ===================================================================== -/

theorem xor_mod_two_pow (a b n : Nat) : (a ^^^ b) % 2 ^ n = a % 2 ^ n ^^^ b % 2 ^ n := by
  rw [← Nat.and_pow_two_sub_one_eq_mod, ← Nat.and_pow_two_sub_one_eq_mod,
      ← Nat.and_pow_two_sub_one_eq_mod, Nat.and_xor_distrib_right]

theorem xor_shiftLeft_distrib (a b k : Nat) : (a ^^^ b) <<< k = (a <<< k) ^^^ (b <<< k) := by
  apply Nat.eq_of_testBit_eq
  intro i
  simp only [Nat.testBit_shiftLeft, Nat.testBit_xor]
  rcases Nat.lt_or_ge i k with h | h
  · simp [Nat.not_le.mpr h]
  · simp [h, ge_iff_le]

theorem and_8000_iff (x : Nat) : x &&& 0x8000 ≠ 0 ↔ x.testBit 15 = true := by
  have h : (0x8000 : Nat) = 2 ^ 15 := by norm_num
  rw [h, Nat.and_two_pow]
  cases hx : x.testBit 15 <;> simp

theorem byte_decomp (c : Nat) : ((c >>> 8) <<< 8) ^^^ (c % 256) = c := by
  apply Nat.eq_of_testBit_eq
  intro i
  have h256 : (256 : Nat) = 2 ^ 8 := by norm_num
  simp only [Nat.testBit_xor, Nat.testBit_shiftLeft, h256, Nat.testBit_mod_two_pow]
  rcases Nat.lt_or_ge i 8 with h | h
  · rw [decide_eq_false (by omega : ¬ i ≥ 8), decide_eq_true h, Bool.false_and,
        Bool.true_and, Bool.false_xor]
  · rw [decide_eq_true (by omega : i ≥ 8), decide_eq_false (by omega : ¬ i < 8),
        Bool.true_and, Bool.false_and, Bool.xor_false, Nat.testBit_shiftRight]
    congr 1
    omega

/- ===================================================================== -/
/- Helper lemmas: the table-driven CRC equals the bitwise CRC            -/
/- ===================================================================== -/

theorem crcStep_xor (x y : Nat) : crcStep (x ^^^ y) = crcStep x ^^^ crcStep y := by
  have hm : (65536 : Nat) = 2 ^ 16 := by norm_num
  by_cases hx : x.testBit 15 = true <;> by_cases hy : y.testBit 15 = true
  · have hxy : ¬ ((x ^^^ y).testBit 15 = true) := by simp [Nat.testBit_xor, hx, hy]
    unfold crcStep
    rw [if_pos ((and_8000_iff x).mpr hx), if_pos ((and_8000_iff y).mpr hy),
        if_neg (fun h => hxy ((and_8000_iff _).mp h))]
    rw [hm, ← xor_mod_two_pow, xor_shiftLeft_distrib]
    congr 1
    apply Nat.eq_of_testBit_eq
    intro i
    simp [Nat.testBit_xor, Bool.xor_assoc, Bool.xor_comm, Bool.xor_left_comm]
  · have hxy : (x ^^^ y).testBit 15 = true := by simp [Nat.testBit_xor, hx, hy]
    unfold crcStep
    rw [if_pos ((and_8000_iff x).mpr hx), if_neg (fun h => hy ((and_8000_iff _).mp h)),
        if_pos ((and_8000_iff _).mpr hxy)]
    rw [hm, ← xor_mod_two_pow, xor_shiftLeft_distrib]
    congr 1
    apply Nat.eq_of_testBit_eq
    intro i
    simp [Nat.testBit_xor, Bool.xor_assoc, Bool.xor_comm, Bool.xor_left_comm]
  · have hxy : (x ^^^ y).testBit 15 = true := by simp [Nat.testBit_xor, hx, hy]
    unfold crcStep
    rw [if_neg (fun h => hx ((and_8000_iff _).mp h)), if_pos ((and_8000_iff y).mpr hy),
        if_pos ((and_8000_iff _).mpr hxy)]
    rw [hm, ← xor_mod_two_pow, xor_shiftLeft_distrib]
    congr 1
    apply Nat.eq_of_testBit_eq
    intro i
    simp [Nat.testBit_xor, Bool.xor_assoc, Bool.xor_comm, Bool.xor_left_comm]
  · have hxy : ¬ ((x ^^^ y).testBit 15 = true) := by simp [Nat.testBit_xor, hx, hy]
    unfold crcStep
    rw [if_neg (fun h => hx ((and_8000_iff _).mp h)), if_neg (fun h => hy ((and_8000_iff _).mp h)),
        if_neg (fun h => hxy ((and_8000_iff _).mp h))]
    rw [hm, ← xor_mod_two_pow, xor_shiftLeft_distrib]

theorem crcStep8_xor (x y : Nat) : crcStep8 (x ^^^ y) = crcStep8 x ^^^ crcStep8 y := by
  unfold crcStep8
  rw [crcStep_xor, crcStep_xor, crcStep_xor, crcStep_xor, crcStep_xor, crcStep_xor,
      crcStep_xor, crcStep_xor]

set_option maxRecDepth 8192

theorem crcStep8_low_byte : ∀ lo < 256, crcStep8 lo = lo <<< 8 := by decide

theorem crcStep_lt (c : Nat) : crcStep c < 65536 := by
  unfold crcStep
  split <;> exact Nat.mod_lt _ (by norm_num)

theorem crcStep8_lt (c : Nat) : crcStep8 c < 65536 := by
  unfold crcStep8
  exact crcStep_lt _

theorem crc_table_getD (i : Nat) (h : i < 256) :
    acp_crc16_table.getD i 0 = crcStep8 ((i <<< 8) % 65536) := by
  unfold acp_crc16_table
  rw [List.getD_eq_getElem _ _ (by simp [List.length_map, List.length_range]; omega),
      List.getElem_map, List.getElem_range]

theorem shiftLeft8_mod (i : Nat) (h : i < 256) : (i <<< 8) % 65536 = i <<< 8 := by
  apply Nat.mod_eq_of_lt
  rw [Nat.shiftLeft_eq]
  omega

theorem acp_crc16_update_byte_eq (c b : Nat) (hc : c < 65536) (hb : b < 256) :
    acp_crc16_update_byte c b = crc16_ccitt_step c b := by
  have hhi : c >>> 8 < 256 := by
    rw [Nat.shiftRight_eq_div_pow]
    omega
  have hidx : ((c >>> 8) ^^^ b) < 256 := by
    have := Nat.xor_lt_two_pow (n := 8) (by simpa using hhi) (by simpa using hb)
    simpa using this
  have hidx2 : ((c >>> 8) ^^^ b) % 256 = (c >>> 8) ^^^ b := Nat.mod_eq_of_lt hidx
  unfold acp_crc16_update_byte crc16_ccitt_step
  rw [hidx2, crc_table_getD _ hidx, shiftLeft8_mod _ hidx]
  have hc16 : c < 2 ^ 16 := by omega
  have hb16 : b <<< 8 < 2 ^ 16 := by rw [Nat.shiftLeft_eq]; omega
  have hxlt : c ^^^ (b <<< 8) < 65536 := by
    have := Nat.xor_lt_two_pow hc16 hb16
    omega
  rw [Nat.mod_eq_of_lt hxlt]
  have hdec : c = ((c >>> 8) <<< 8) ^^^ (c % 256) := (byte_decomp c).symm
  conv_rhs => rw [hdec]
  rw [Nat.xor_assoc, Nat.xor_comm (c % 256) (b <<< 8), ← Nat.xor_assoc,
      ← xor_shiftLeft_distrib]
  rw [crcStep8_xor]
  rw [crcStep8_low_byte (c % 256) (Nat.mod_lt _ (by norm_num))]
  have hls : (65536 : Nat) = 2 ^ 16 := by norm_num
  have hmod : ((c <<< 8) ^^^ crcStep8 (((c >>> 8) ^^^ b) <<< 8)) % 65536
      = ((c <<< 8) % 65536) ^^^ crcStep8 (((c >>> 8) ^^^ b) <<< 8) := by
    rw [hls, xor_mod_two_pow]
    rw [Nat.mod_eq_of_lt (a := crcStep8 _)
      (by have := crcStep8_lt (((c >>> 8) ^^^ b) <<< 8); omega)]
  rw [hmod]
  have hshift : (c <<< 8) % 65536 = (c % 256) <<< 8 := by
    rw [Nat.shiftLeft_eq, Nat.shiftLeft_eq]
    have h1 : c * 2 ^ 8 = 2 ^ 8 * c := by ring
    have h2 : (65536 : Nat) = 2 ^ 8 * 256 := by norm_num
    rw [h1, h2, Nat.mul_mod_mul_left]
    ring
  rw [hshift, Nat.xor_comm]

theorem acp_crc16_update_eq_fold : ∀ (data : List Nat) (c : Nat), c < 65536 →
    (∀ b ∈ data, b < 256) →
    acp_crc16_update c data = data.foldl crc16_ccitt_step c := by
  intro data
  induction data with
  | nil => intro c _ _; rfl
  | cons b t ih =>
    intro c hc hb
    have hb1 : b < 256 := hb b (List.mem_cons_self ..)
    have hb2 : ∀ x ∈ t, x < 256 := fun x hx => hb x (List.mem_cons_of_mem _ hx)
    unfold acp_crc16_update
    rw [List.foldl_cons, List.foldl_cons, acp_crc16_update_byte_eq c b hc hb1]
    have hlt : crc16_ccitt_step c b < 65536 := crcStep8_lt _
    exact ih (crc16_ccitt_step c b) hlt hb2

/- ===================================================================== -/
/- Claim C9                                                              -/
/- ===================================================================== -/

/-- C9: `acp_crc16_calculate` — the table-driven implementation over the
256-entry table of `acp_crc16_init_table` — computes CRC-16/CCITT with
polynomial `0x1021`, initial value `0xFFFF`, no reflection and no final
XOR (it agrees with the textbook bitwise algorithm on every byte string),
and in particular maps the nine ASCII bytes of "123456789" to `0x29B1`. -/
theorem acp_crc16_implements_ccitt_false :
    (∀ data : List Nat, (∀ b ∈ data, b < 256) →
      acp_crc16_calculate data = crc16_ccitt data)
    ∧ acp_crc16_calculate [49, 50, 51, 52, 53, 54, 55, 56, 57] = 0x29B1 := by
  constructor
  · intro data hb
    unfold acp_crc16_calculate crc16_ccitt acp_crc16_finalize acp_crc16_init
    rw [Nat.xor_zero]
    exact acp_crc16_update_eq_fold data 0xFFFF (by norm_num) hb
  · decide

/-- C9 witness: the universally quantified half applied to the standard
test vector "123456789", whose bytes are all below 256. -/
theorem acp_crc16_implements_ccitt_false_witness :
    acp_crc16_calculate [49, 50, 51, 52, 53, 54, 55, 56, 57]
      = crc16_ccitt [49, 50, 51, 52, 53, 54, 55, 56, 57] :=
  acp_crc16_implements_ccitt_false.1 _ (by decide)

/- ===================================================================== -/
/- Claim C6                                                              -/
/- ===================================================================== -/

/-- C6: `acp_hmac_sha256` (modelled from the spec — RFC 2104 HMAC-SHA-256,
of which the codec uses the first 16 bytes) maps the RFC 4231 test-case-1
inputs — key of twenty `0x0B` bytes, message "Hi There" — to a tag whose
first 16 bytes are `B0 34 4C 61 D8 DB 38 53 5C A8 AF CE AF 0B F1 2B`. -/
theorem acp_hmac_sha256_rfc4231_case1 :
    (acp_hmac_sha256 (List.replicate 20 0x0B)
      [0x48, 0x69, 0x20, 0x54, 0x68, 0x65, 0x72, 0x65]).take 16 =
    [0xB0, 0x34, 0x4C, 0x61, 0xD8, 0xDB, 0x38, 0x53,
     0x5C, 0xA8, 0xAF, 0xCE, 0xAF, 0x0B, 0xF1, 0x2B] := by decide

/- ===================================================================== -/
/- Claim C3 (code bug)                                                   -/
/- ===================================================================== -/

/-- C3: evaluation of the codec at the failing input.  For type Telemetry
and payload `[0x44]` the wire frame is `11 01 00 00 00 01 44 05 00` (its
CRC is `0x0005`, so the low-first CRC bytes end the frame with `0x00`);
`acp_cobs_encode` consumes that trailing zero without encoding it, the
decoder recovers a frame one byte short, and `acp_decode_frame` rejects
the codec's own output with `CrcMismatch` instead of round-tripping. -/
theorem acp_roundtrip_fails_on_trailing_zero_crc :
    (acp_encode_frame acp_hmac_sha256_stub 0x01 0 [0x44] none 256).1 = ACP_OK
    ∧ acp_crc16_calculate [0x11, 0x01, 0x00, 0x00, 0x00, 0x01, 0x44] = 0x0005
    ∧ (acp_decode_frame acp_hmac_sha256_stub
        (acp_encode_frame acp_hmac_sha256_stub 0x01 0 [0x44] none 256).2.1 none).1
      = ACP_ERR_CRC_MISMATCH := by
  refine ⟨by decide, by decide, by decide⟩

theorem byte_decomp_or (c : Nat) : ((c >>> 8) <<< 8) ||| (c % 256) = c := by
  apply Nat.eq_of_testBit_eq
  intro i
  have h256 : (256 : Nat) = 2 ^ 8 := by norm_num
  simp only [Nat.testBit_lor, Nat.testBit_shiftLeft, h256, Nat.testBit_mod_two_pow]
  rcases Nat.lt_or_ge i 8 with h | h
  · rw [decide_eq_false (by omega : ¬ i ≥ 8), decide_eq_true h, Bool.false_and,
        Bool.true_and, Bool.false_or]
  · rw [decide_eq_true (by omega : i ≥ 8), decide_eq_false (by omega : ¬ i < 8),
        Bool.true_and, Bool.false_and, Bool.or_false, Nat.testBit_shiftRight]
    congr 1
    omega

theorem acp_crc16_update_lt (data : List Nat) (c : Nat) (hc : c < 65536) :
    acp_crc16_update c data < 65536 := by
  induction data generalizing c with
  | nil => exact hc
  | cons b t ih =>
    unfold acp_crc16_update at ih ⊢
    rw [List.foldl_cons]
    exact ih _ (Nat.mod_lt _ (by norm_num))

theorem acp_crc16_calculate_lt (data : List Nat) : acp_crc16_calculate data < 65536 := by
  unfold acp_crc16_calculate acp_crc16_finalize acp_crc16_init
  rw [Nat.xor_zero]
  exact acp_crc16_update_lt data _ (by norm_num)

/- ===================================================================== -/
/- Claim C2 (corrected)                                                  -/
/- ===================================================================== -/

/-- C2 counterexample: for the empty Telemetry frame the CRC over the
6-byte body is `0xFB65`, yet the byte at offset `wire_len - 2` is `0x65`
(the LOW byte) and the byte at `wire_len - 1` is `0xFB` — the claimed
big-endian placement (high byte at `wire_len - 2`) is false at this
input. -/
theorem acp_frame_crc_big_endian_counterexample :
    acp_crc16_calculate
      ((acp_frame_wire_bytes ⟨0x11, 0x01, 0, 0, 0, []⟩).take
        ((acp_frame_wire_bytes ⟨0x11, 0x01, 0, 0, 0, []⟩).length - 2)) = 0xFB65
    ∧ ¬ ((acp_frame_wire_bytes ⟨0x11, 0x01, 0, 0, 0, []⟩).getD
          ((acp_frame_wire_bytes ⟨0x11, 0x01, 0, 0, 0, []⟩).length - 2) 0 = 0xFB
        ∧ (acp_frame_wire_bytes ⟨0x11, 0x01, 0, 0, 0, []⟩).getD
          ((acp_frame_wire_bytes ⟨0x11, 0x01, 0, 0, 0, []⟩).length - 1) 0 = 0x65) := by
  refine ⟨by decide, by decide⟩

/-- C2 amended: the two CRC bytes `acp_frame_encode` appends to the wire
frame are LITTLE-endian — low byte at offset `wire_len - 2`, high byte at
`wire_len - 1` — and the receive-side read of `acp_frame_decode`
(`acp_received_crc`) uses the same little-endian order, so the value it
reads back is exactly the CRC of the preceding bytes. -/
theorem acp_frame_crc_is_little_endian (f : AcpFrame) :
    (acp_frame_wire_bytes f).getD ((acp_frame_wire_bytes f).length - 2) 0
      = acp_crc16_calculate
          ((acp_frame_wire_bytes f).take ((acp_frame_wire_bytes f).length - 2)) % 256
    ∧ (acp_frame_wire_bytes f).getD ((acp_frame_wire_bytes f).length - 1) 0
      = acp_crc16_calculate
          ((acp_frame_wire_bytes f).take ((acp_frame_wire_bytes f).length - 2)) >>> 8 % 256
    ∧ acp_received_crc (acp_frame_wire_bytes f)
      = acp_crc16_calculate
          ((acp_frame_wire_bytes f).take ((acp_frame_wire_bytes f).length - 2)) := by
  unfold acp_frame_wire_bytes
  set body := acp_frame_wire_body f with hbody
  set crc := acp_crc16_calculate body with hcrc
  have hlen : (body ++ [crc % 256, (crc >>> 8) % 256]).length = body.length + 2 := by
    simp [List.length_append]
  have hsub : (body ++ [crc % 256, (crc >>> 8) % 256]).length - 2 = body.length := by
    omega
  have hsub1 : (body ++ [crc % 256, (crc >>> 8) % 256]).length - 1 = body.length + 1 := by
    omega
  have htake : (body ++ [crc % 256, (crc >>> 8) % 256]).take body.length = body :=
    List.take_left _ _
  have hget2 : (body ++ [crc % 256, (crc >>> 8) % 256]).getD body.length 0 = crc % 256 := by
    rw [List.getD_append_right _ _ _ _ (Nat.le_refl _), Nat.sub_self]
    rfl
  have hget1 : (body ++ [crc % 256, (crc >>> 8) % 256]).getD (body.length + 1) 0
      = (crc >>> 8) % 256 := by
    rw [List.getD_append_right _ _ _ _ (by omega), Nat.add_sub_cancel_left]
    rfl
  have hcrclt : crc < 65536 := acp_crc16_calculate_lt _
  have hhi : (crc >>> 8) % 256 = crc >>> 8 := by
    apply Nat.mod_eq_of_lt
    rw [Nat.shiftRight_eq_div_pow]
    omega
  refine ⟨?_, ?_, ?_⟩
  · rw [hsub, hget2, htake]
  · rw [hsub, hsub1, hget1, htake]
  · unfold acp_received_crc
    rw [hsub, hsub1, hget1, hget2, htake]
    rw [hhi, byte_decomp_or]

/- ===================================================================== -/
/- Claim C7                                                              -/
/- ===================================================================== -/

/-- C7: whenever `acp_decode_frame` returns `AUTH_FAILED` or `REPLAY`, the
supplied session is returned unchanged in every field; conversely the
session object changes only on the `ACP_OK` path, which is reached only
after both the constant-time tag comparison and the sequence check have
passed.  This holds for every input, every session and every linked
`acp_hmac_sha256` implementation. -/
theorem acp_decode_frame_errors_do_not_mutate_session
    (hmac : List Nat → List Nat → List Nat) (input : List Nat) (s : Option AcpSession) :
    ((acp_decode_frame hmac input s).1 = ACP_ERR_AUTH_FAILED ∨
     (acp_decode_frame hmac input s).1 = ACP_ERR_REPLAY →
      (acp_decode_frame hmac input s).2.2.2 = s)
    ∧ ((acp_decode_frame hmac input s).2.2.2 ≠ s →
      (acp_decode_frame hmac input s).1 = ACP_OK) := by
  unfold acp_decode_frame
  dsimp only
  repeat' split
  all_goals simp

/-- C7 witness: a concrete replayed Command frame (stub HMAC, receiver
whose anchor is already 2) is rejected with `REPLAY` and the theorem then
gives that the receiver session is unchanged. -/
theorem acp_decode_frame_errors_do_not_mutate_session_witness :
    (acp_decode_frame acp_hmac_sha256_stub
      (acp_encode_frame acp_hmac_sha256_stub 0x02 0x01 [0x41]
        (some (acp_session_init 1 (List.replicate 32 0xAB) 7)) 256).2.1
      (some { acp_session_init 1 (List.replicate 32 0xAB) 7 with
              last_accepted_seq := 2 })).2.2.2
    = some { acp_session_init 1 (List.replicate 32 0xAB) 7 with
             last_accepted_seq := 2 } :=
  (acp_decode_frame_errors_do_not_mutate_session acp_hmac_sha256_stub
    (acp_encode_frame acp_hmac_sha256_stub 0x02 0x01 [0x41]
      (some (acp_session_init 1 (List.replicate 32 0xAB) 7)) 256).2.1
    (some { acp_session_init 1 (List.replicate 32 0xAB) 7 with
            last_accepted_seq := 2 })).1 (Or.inr (by decide))

/- ===================================================================== -/
/- Claim C5 (corrected)                                                  -/
/- ===================================================================== -/

/-- C5 counterexample: the input below COBS-decodes to the wire frame
`11 01 00 01 00 00 55 CC`, whose reserved byte (offset 3) is `0x01` and
whose CRC verifies, yet `acp_frame_decode` returns `ACP_OK` — not
`MalformedFrame` as the claim demands. -/
theorem acp_frame_decode_reserved_byte_counterexample :
    acp_cobs_decode (([0, 3, 17, 1, 2, 1, 1, 3, 85, 204, 0].drop 1).take 9) 1088
      = Except.ok [17, 1, 0, 1, 0, 0, 85, 204]
    ∧ ([17, 1, 0, 1, 0, 0, 85, 204] : List Nat).getD 3 0 = 1
    ∧ (acp_frame_decode [0, 3, 17, 1, 2, 1, 1, 3, 85, 204, 0]).1 = ACP_OK
    ∧ ACP_OK ≠ ACP_ERR_MALFORMED_FRAME := by
  refine ⟨rfl, by decide, by decide, by decide⟩

/-- C5 amended: `acp_frame_decode` performs no validation of the reserved
byte or of reserved flag bits at all.  Whenever the staged checks it does
perform succeed — COBS decoding, minimum length, CRC, length consistency,
payload bound — the frame is accepted with `ACP_OK` and the flags byte is
passed through verbatim, irrespective of the reserved byte `decoded[3]`
and of flag bits other than bit 0 (which only enters through
`acp_wire_header_size`).  Note the absence of any hypothesis about
`d.getD 3 0` or the high flag bits. -/
theorem acp_frame_decode_ignores_reserved
    (input : List Nat) (frame_end : Nat) (d : List Nat)
    (hlen : 10 ≤ input.length)
    (h0 : input.getD 0 0 = 0)
    (hfe : acp_find_frame_end input = some frame_end)
    (hcobs : acp_cobs_decode ((input.drop 1).take (frame_end - 1)) 1088 = .ok d)
    (hd8 : 8 ≤ d.length)
    (hhs : acp_wire_header_size (d.getD 2 0) + 2 ≤ d.length)
    (hcrc : acp_crc16_calculate (d.take (d.length - 2)) = acp_received_crc d)
    (hlenc : acp_wire_header_size (d.getD 2 0) + acp_wire_payload_len d + 2 = d.length)
    (hpl : acp_wire_payload_len d ≤ 1024) :
    (acp_frame_decode input).1 = ACP_OK
    ∧ ((acp_frame_decode input).2.1.map (fun fr => fr.flags)) = some (d.getD 2 0) := by
  unfold acp_frame_decode
  rw [if_neg (by omega : ¬ input.length < 6 + 2 + 2),
      if_neg (by rw [h0]; simp : ¬ input.getD 0 0 ≠ 0)]
  rw [hfe]
  dsimp only
  rw [hcobs]
  dsimp only
  rw [if_neg (by omega : ¬ d.length < 6 + 2),
      if_neg (by omega : ¬ d.length < acp_wire_header_size (d.getD 2 0) + 2),
      if_neg (by rw [hcrc]; simp : ¬ acp_crc16_calculate (d.take (d.length - 2)) ≠ acp_received_crc d),
      if_neg (by omega : ¬ acp_wire_header_size (d.getD 2 0) + acp_wire_payload_len d + 2 ≠ d.length),
      if_neg (by omega : ¬ acp_wire_payload_len d > 1024)]
  exact ⟨rfl, rfl⟩

/-- C5 witness: the amended theorem applied to the concrete reserved-byte
input, all staged hypotheses discharged by computation. -/
theorem acp_frame_decode_ignores_reserved_witness :
    (acp_frame_decode [0, 3, 17, 1, 2, 1, 1, 3, 85, 204, 0]).1 = ACP_OK
    ∧ ((acp_frame_decode [0, 3, 17, 1, 2, 1, 1, 3, 85, 204, 0]).2.1.map
        (fun fr => fr.flags)) = some (([17, 1, 0, 1, 0, 0, 85, 204] : List Nat).getD 2 0) :=
  acp_frame_decode_ignores_reserved [0, 3, 17, 1, 2, 1, 1, 3, 85, 204, 0] 10
    [17, 1, 0, 1, 0, 0, 85, 204] (by decide) (by decide) (by decide) rfl
    (by decide) (by decide) (by decide) (by decide) (by decide)

/- ===================================================================== -/
/- Claim C4 (corrected)                                                  -/
/- ===================================================================== -/

/-- C4 counterexample: the parameter checks of `acp_encode_frame` run in
source order, and the payload-size check precedes the authentication
check, so `acp_encode_frame(Command, 0, payload)` with a 1025-byte payload
returns `PayloadTooLarge` — not `AuthRequired` — refuting "returns
AuthRequired for every payload". -/
theorem acp_encode_command_oversize_counterexample :
    (acp_encode_frame acp_hmac_sha256_stub 0x02 0 (List.replicate 1025 0x41)
      none 4096).1 = ACP_ERR_PAYLOAD_TOO_LARGE
    ∧ ACP_ERR_PAYLOAD_TOO_LARGE ≠ ACP_ERR_AUTH_REQUIRED := by
  refine ⟨by decide, by decide⟩

/-- C4 amended: for every payload of AT MOST 1024 bytes (larger payloads
are rejected earlier with `PayloadTooLarge`), `acp_encode_frame` of a
Command frame whose flags have the Authenticated bit clear returns
`AuthRequired`; and `acp_decode_frame` of any input whose delimited slice
parses (`acp_frame_decode` returns `ACP_OK`) as an unauthenticated
Command frame returns `AuthRequired`, for every session argument. -/
theorem acp_command_frames_require_auth :
    (∀ (hmac : List Nat → List Nat → List Nat) (flags : Nat) (payload : List Nat)
       (session : Option AcpSession) (cap : Nat),
      payload.length ≤ 1024 → flags &&& 0x01 = 0 →
      (acp_encode_frame hmac 0x02 flags payload session cap).1 = ACP_ERR_AUTH_REQUIRED)
    ∧ (∀ (hmac : List Nat → List Nat → List Nat) (input : List Nat)
         (session : Option AcpSession) (frame_end frame_consumed : Nat) (fr : AcpFrame),
        input.length ≠ 0 → input.getD 0 0 = 0 →
        acp_find_frame_end input = some frame_end →
        acp_frame_decode (input.take (frame_end + 1)) = (ACP_OK, some fr, frame_consumed) →
        fr.flags &&& 0x01 = 0 → fr.type = 0x02 →
        (acp_decode_frame hmac input session).1 = ACP_ERR_AUTH_REQUIRED) := by
  constructor
  · intro hmac flags payload session cap hlen hflag
    unfold acp_encode_frame
    rw [if_neg (by omega : ¬ payload.length > 1024),
        if_neg (by decide : ¬ ¬ acp_is_valid_frame_type 0x02 = true),
        if_pos (⟨by decide, hflag⟩ :
          acp_frame_requires_auth 0x02 = true ∧ flags &&& 0x01 = 0)]
  · intro hmac input session frame_end frame_consumed fr hne h0 hfe hfd hflag hty
    unfold acp_decode_frame
    rw [if_neg (by omega : ¬ input.length = 0),
        if_neg (by rw [h0]; simp : ¬ input.getD 0 0 ≠ 0),
        hfe]
    dsimp only
    rw [hfd]
    dsimp only
    rw [if_neg (by rw [hflag]; simp : ¬ fr.flags &&& 0x01 ≠ 0),
        if_pos (by rw [hty]; decide : acp_frame_requires_auth fr.type = true)]

/-- C4 witness: both halves at concrete inputs — empty payload on the
encode side; the unauthenticated Command frame
`00 03 11 02 01 01 01 03 B7 15 00` on the decode side. -/
theorem acp_command_frames_require_auth_witness :
    (acp_encode_frame acp_hmac_sha256_stub 0x02 0 [] none 64).1
      = ACP_ERR_AUTH_REQUIRED
    ∧ (acp_decode_frame acp_hmac_sha256_stub
        [0, 3, 17, 2, 1, 1, 1, 3, 183, 21, 0] none).1 = ACP_ERR_AUTH_REQUIRED :=
  ⟨acp_command_frames_require_auth.1 acp_hmac_sha256_stub 0 [] none 64
      (by decide) (by decide),
   acp_command_frames_require_auth.2 acp_hmac_sha256_stub
      [0, 3, 17, 2, 1, 1, 1, 3, 183, 21, 0] none 10 11
      ⟨0x11, 0x02, 0, 0, 0, []⟩ (by decide) (by decide) (by decide) (by decide)
      (by decide) (by decide)⟩

/- ===================================================================== -/
/- Claim C8 (code bug)                                                   -/
/- ===================================================================== -/

/-- C8: evaluation at the failing input.  From an initialised session whose
transmit counter has reached `0xFFFFFFFF`, an authenticated Telemetry
encode succeeds and leaves `next_sequence = 0` (the raw 32-bit increment
of `src/acp.c:182` does not skip 0 the way `acp_session_get_tx_seq`
does); a second encode then succeeds and its wire frame carries sequence
bytes `00 00 00 00` — an authenticated frame with sequence 0, which the
claim rules out.  (The skip in `acp_session_get_tx_seq` itself is
confirmed by the last conjunct.) -/
theorem acp_encode_frame_wraps_sequence_to_zero :
    (acp_encode_frame acp_hmac_sha256_stub 0x01 0x01 []
      (some { acp_session_init 1 (List.replicate 32 0xAB) 7 with
              next_sequence := 0xFFFFFFFF }) 64).1 = ACP_OK
    ∧ (acp_encode_frame acp_hmac_sha256_stub 0x01 0x01 []
        (some { acp_session_init 1 (List.replicate 32 0xAB) 7 with
                next_sequence := 0xFFFFFFFF }) 64).2.2
      = some { acp_session_init 1 (List.replicate 32 0xAB) 7 with
               next_sequence := 0 }
    ∧ (acp_encode_frame acp_hmac_sha256_stub 0x01 0x01 []
        (some { acp_session_init 1 (List.replicate 32 0xAB) 7 with
                next_sequence := 0 }) 64).1 = ACP_OK
    ∧ acp_cobs_decode
        (((acp_encode_frame acp_hmac_sha256_stub 0x01 0x01 []
            (some { acp_session_init 1 (List.replicate 32 0xAB) 7 with
                    next_sequence := 0 }) 64).2.1.drop 1).take
          ((acp_encode_frame acp_hmac_sha256_stub 0x01 0x01 []
            (some { acp_session_init 1 (List.replicate 32 0xAB) 7 with
                    next_sequence := 0 }) 64).2.1.length - 18)) 1088
      = Except.ok [0x11, 0x01, 0x01, 0, 0, 0, 0, 0, 0, 0, 0x1A, 0xB6]
    ∧ acp_wire_sequence [0x11, 0x01, 0x01, 0, 0, 0, 0, 0, 0, 0, 0x1A, 0xB6] = 0
    ∧ (acp_session_get_tx_seq { acp_session_init 1 (List.replicate 32 0xAB) 7 with
        next_sequence := 0xFFFFFFFF }).2.2.next_sequence = 1 := by
  refine ⟨by decide, by decide, by decide, rfl, by decide, by decide⟩

/- ===================================================================== -/
/- Claim C10                                                             -/
/- ===================================================================== -/

/-- C10: `acp_encode_frame` returns `SESSION_NOT_INIT` for an
authenticated frame exactly when `session == NULL` — a non-NULL but
UNinitialised session is used anyway: the encode proceeds to `ACP_OK`,
the tag is computed with the session's key and its `next_sequence` is
consumed and incremented.  `acp_decode_frame`, in contrast, also demands
`session->initialized` and rejects an uninitialised session with
`SESSION_NOT_INIT`. -/
theorem acp_session_checks_are_asymmetric :
    (∀ (hmac : List Nat → List Nat → List Nat) (ty flags : Nat) (payload : List Nat)
       (cap : Nat),
      payload.length ≤ 1024 → acp_is_valid_frame_type ty = true → flags &&& 0x01 ≠ 0 →
      (acp_encode_frame hmac ty flags payload none cap).1 = ACP_ERR_SESSION_NOT_INIT)
    ∧ (∀ (hmac : List Nat → List Nat → List Nat) (ty flags : Nat) (payload : List Nat)
         (cap : Nat) (s : AcpSession) (enc : List Nat),
      payload.length ≤ 1024 → acp_is_valid_frame_type ty = true → flags &&& 0x01 ≠ 0 →
      s.initialized = false →
      acp_frame_encode
        { version := 0x11, type := ty, flags := flags, length := payload.length,
          sequence := s.next_sequence, payload := payload } cap = .ok enc →
      ¬ cap < enc.length + 16 →
      acp_encode_frame hmac ty flags payload (some s) cap
        = (ACP_OK,
           enc ++ (hmac (s.key.take 32) ((enc.drop 1).take (enc.length - 2))).take 16,
           some { s with next_sequence := (s.next_sequence + 1) % 4294967296 }))
    ∧ (∀ (hmac : List Nat → List Nat → List Nat) (input : List Nat) (s : AcpSession)
         (frame_end frame_consumed : Nat) (fr : AcpFrame),
      input.length ≠ 0 → input.getD 0 0 = 0 →
      acp_find_frame_end input = some frame_end →
      acp_frame_decode (input.take (frame_end + 1)) = (ACP_OK, some fr, frame_consumed) →
      fr.flags &&& 0x01 ≠ 0 → s.initialized = false →
      (acp_decode_frame hmac input (some s)).1 = ACP_ERR_SESSION_NOT_INIT) := by
  refine ⟨?_, ?_, ?_⟩
  · intro hmac ty flags payload cap hlen hty hflag
    unfold acp_encode_frame
    rw [if_neg (by omega : ¬ payload.length > 1024),
        if_neg (by simp [hty] : ¬ ¬ acp_is_valid_frame_type ty = true),
        if_neg (fun h => hflag h.2),
        if_pos (⟨hflag, rfl⟩ : flags &&& 0x01 ≠ 0 ∧ (none : Option AcpSession) = none)]
  · intro hmac ty flags payload cap s enc hlen hty hflag hinit henc hcap
    unfold acp_encode_frame
    rw [if_neg (by omega : ¬ payload.length > 1024),
        if_neg (by simp [hty] : ¬ ¬ acp_is_valid_frame_type ty = true),
        if_neg (fun h => hflag h.2),
        if_neg (fun h => Option.noConfusion h.2)]
    rw [if_pos hflag]
    dsimp only
    rw [henc]
    dsimp only
    rw [if_pos hflag, if_neg hcap]
  · intro hmac input s frame_end frame_consumed fr hne h0 hfe hfd hflag hinit
    unfold acp_decode_frame
    rw [if_neg (by omega : ¬ input.length = 0),
        if_neg (by rw [h0]; simp : ¬ input.getD 0 0 ≠ 0),
        hfe]
    dsimp only
    rw [hfd]
    dsimp only
    rw [if_pos hflag]
    rw [if_pos (by rw [hinit]; simp : ¬ s.initialized = true)]

/-- C10 witness: all three parts at concrete inputs.  The uninitialised
session (initialised flag forced off) still encodes an authenticated
Telemetry frame, with the stub tag appended and the counter bumped to 2;
decoding that same frame with an uninitialised receiver fails with
`SESSION_NOT_INIT`. -/
theorem acp_session_checks_are_asymmetric_witness :
    (acp_encode_frame acp_hmac_sha256_stub 0x01 0x01 [] none 64).1
      = ACP_ERR_SESSION_NOT_INIT
    ∧ acp_encode_frame acp_hmac_sha256_stub 0x01 0x01 []
        (some { acp_session_init 1 (List.replicate 32 0xAB) 7 with
                initialized := false }) 64
      = (ACP_OK,
         [0, 4, 17, 1, 1, 1, 1, 1, 1, 1, 4, 1, 59, 166, 0]
           ++ (acp_hmac_sha256_stub
                (({ acp_session_init 1 (List.replicate 32 0xAB) 7 with
                    initialized := false } : AcpSession).key.take 32)
                (([0, 4, 17, 1, 1, 1, 1, 1, 1, 1, 4, 1, 59, 166, 0].drop 1).take 13)).take 16,
         some { acp_session_init 1 (List.replicate 32 0xAB) 7 with
                initialized := false, next_sequence := 2 })
    ∧ (acp_decode_frame acp_hmac_sha256_stub
        [0, 4, 17, 1, 1, 1, 1, 1, 1, 1, 4, 1, 59, 166, 0, 160, 161, 162, 163,
         164, 165, 166, 167, 168, 169, 170, 171, 172, 173, 174, 175]
        (some { acp_session_init 1 (List.replicate 32 0xAB) 7 with
                initialized := false })).1 = ACP_ERR_SESSION_NOT_INIT :=
  ⟨acp_session_checks_are_asymmetric.1 acp_hmac_sha256_stub 0x01 0x01 [] 64
      (by decide) (by decide) (by decide),
   acp_session_checks_are_asymmetric.2.1 acp_hmac_sha256_stub 0x01 0x01 [] 64
      { acp_session_init 1 (List.replicate 32 0xAB) 7 with initialized := false }
      [0, 4, 17, 1, 1, 1, 1, 1, 1, 1, 4, 1, 59, 166, 0]
      (by decide) (by decide) (by decide) (by decide) rfl (by decide),
   acp_session_checks_are_asymmetric.2.2 acp_hmac_sha256_stub
      [0, 4, 17, 1, 1, 1, 1, 1, 1, 1, 4, 1, 59, 166, 0, 160, 161, 162, 163,
       164, 165, 166, 167, 168, 169, 170, 171, 172, 173, 174, 175]
      { acp_session_init 1 (List.replicate 32 0xAB) 7 with initialized := false }
      14 15 ⟨0x11, 0x01, 0x01, 0, 1, []⟩
      (by decide) (by decide) (by decide) (by decide) (by decide) (by decide)⟩

/-- C1 counterexample: an authenticated frame carrying sequence 1, presented
to a receiver whose highest accepted sequence (`last_accepted_seq`) is 2.
The claim's window condition holds — `rx_anchor - 63 ≤ 1 < 2` and sequence 1
was never accepted — yet `acp_decode_frame` returns `ACP_ERR_REPLAY`, not
`ACP_OK`: the facade compares `sequence <= session->last_accepted_seq`
directly (src/acp.c:274) and never consults `acp_session_check_rx_seq` or
any 64-bit bitmap.  The first conjunct pins the decoded frame (sequence 1),
the second the rejection, the third that this contradicts the claim. -/
theorem acp_decode_frame_window_counterexample :
    (acp_frame_decode ([0, 4, 17, 2, 1, 1, 2, 1, 1, 1, 5, 1, 65, 166, 66, 0]))
      = (ACP_OK, some ⟨0x11, 0x02, 0x01, 1, 1, [0x41]⟩, 16)
    ∧ acp_decode_frame acp_hmac_sha256_stub
        [0, 4, 17, 2, 1, 1, 2, 1, 1, 1, 5, 1, 65, 166, 66, 0,
         160, 161, 162, 163, 164, 165, 166, 167, 168, 169, 170, 171, 172, 173, 174, 175]
        (some { acp_session_init 1 (List.replicate 32 0xAB) 7 with last_accepted_seq := 2 })
      = (ACP_ERR_REPLAY, none, 0,
         some { acp_session_init 1 (List.replicate 32 0xAB) 7 with last_accepted_seq := 2 })
    ∧ ACP_ERR_REPLAY ≠ ACP_OK := by
  refine ⟨by decide, by decide, by decide⟩

/-- C1 amended: `acp_decode_frame`'s replay check is strictly monotonic, not
windowed.  For every HMAC implementation, initialised session and input whose
leading-delimiter, framing and tag checks pass (the hypotheses spell out each
check the facade performs before the sequence comparison), the frame is
rejected with `ACP_ERR_REPLAY` — session untouched — exactly when its
sequence is `≤ last_accepted_seq`, and accepted with `ACP_OK` — the anchor
advancing to the frame's sequence — exactly when its sequence is greater.
No out-of-order sequence below the anchor is ever accepted, and no 64-bit
replay window is involved. -/
theorem acp_decode_frame_replay_is_strictly_monotonic
    (hmac : List Nat → List Nat → List Nat) (input : List Nat) (s : AcpSession)
    (frame_end frame_consumed : Nat) (fr : AcpFrame)
    (h0 : input.getD 0 0 = 0)
    (hfe : acp_find_frame_end input = some frame_end)
    (hfd : acp_frame_decode (input.take (frame_end + 1)) = (ACP_OK, some fr, frame_consumed))
    (hauth : fr.flags &&& 0x01 ≠ 0)
    (hinit : s.initialized = true)
    (havail : ¬ input.length < frame_consumed + 16)
    (htag : (hmac (s.key.take 32) ((input.drop 1).take (frame_consumed - 2))).take 16
            = (input.drop frame_consumed).take 16) :
    (fr.sequence ≤ s.last_accepted_seq →
      acp_decode_frame hmac input (some s) = (ACP_ERR_REPLAY, none, 0, some s))
    ∧ (s.last_accepted_seq < fr.sequence →
      acp_decode_frame hmac input (some s)
        = (ACP_OK, some fr, frame_consumed + 16,
           some { s with last_accepted_seq := fr.sequence })) := by
  unfold acp_decode_frame
  rw [if_neg (by omega : ¬ input.length = 0),
      if_neg (by rw [h0]; simp : ¬ input.getD 0 0 ≠ 0),
      hfe]
  dsimp only
  rw [hfd]
  dsimp only
  rw [if_pos hauth, if_neg (fun h => h hinit), if_neg havail]
  rw [if_neg (by rw [htag]; simp [acp_crypto_memcmp_ct] :
      ¬ acp_crypto_memcmp_ct
          ((hmac (s.key.take 32) ((input.drop 1).take (frame_consumed - 2))).take 16)
          ((input.drop frame_consumed).take 16) ≠ 0)]
  constructor
  · intro hle
    rw [if_pos hle]
  · intro hgt
    rw [if_neg (by omega : ¬ fr.sequence ≤ s.last_accepted_seq)]

/-- C1 witness: the amended theorem's replay half applied to the concrete
counterexample scenario — stub HMAC, the 16-byte COBS frame carrying
sequence 1 followed by its 16-byte tag, receiver anchor 2. -/
theorem acp_decode_frame_replay_is_strictly_monotonic_witness :
    acp_decode_frame acp_hmac_sha256_stub
      [0, 4, 17, 2, 1, 1, 2, 1, 1, 1, 5, 1, 65, 166, 66, 0,
       160, 161, 162, 163, 164, 165, 166, 167, 168, 169, 170, 171, 172, 173, 174, 175]
      (some { acp_session_init 1 (List.replicate 32 0xAB) 7 with last_accepted_seq := 2 })
    = (ACP_ERR_REPLAY, none, 0,
       some { acp_session_init 1 (List.replicate 32 0xAB) 7 with last_accepted_seq := 2 }) :=
  (acp_decode_frame_replay_is_strictly_monotonic acp_hmac_sha256_stub
      [0, 4, 17, 2, 1, 1, 2, 1, 1, 1, 5, 1, 65, 166, 66, 0,
       160, 161, 162, 163, 164, 165, 166, 167, 168, 169, 170, 171, 172, 173, 174, 175]
      { acp_session_init 1 (List.replicate 32 0xAB) 7 with last_accepted_seq := 2 }
      15 16 ⟨0x11, 0x02, 0x01, 1, 1, [0x41]⟩
      (by decide) (by decide) (by decide) (by decide)
      (by decide) (by decide) (by decide)).1 (by decide)
